import Mathlib

/-!
Shallow embedding of the chat widget of `developerFolio`:
`src/components/chatWidget/ChatWidget.js` together with the constants of
`src/chatConfig.js`.

The widget keeps four pieces of React state (`isOpen`, `isSending`,
`input`, `messages`) and two event handlers, `handleToggle` and the async
`handleSubmit`.  `handleSubmit` is modelled in two phases:

* `handleSubmitStart` is the synchronous prefix up to and including the
  `fetch` call: the guard (`!trimmed || isSending`), clearing the input,
  appending the user turn, setting `isSending`, and building the
  `slice(-25)` payload.  The captured `updatedHistory` of the closure is
  recorded in the `pendingHistory` field; the body handed to `fetch` is
  appended to the `sentPayloads` log.
* `handleSubmitSettle` is the continuation that runs when the network
  call settles: it classifies the outcome exactly as the `try`/`catch`
  of the source does and runs `setMessages([...updatedHistory, msg])`
  plus the `finally` clause `setIsSending(false)`.

A small step relation `step` over events (typing into the textarea,
toggling the popup, submitting, settlement of the in-flight request)
gives the reachable states of a widget session.
-/

set_option autoImplicit false

namespace ChatWidget

/-- One conversation turn: `{ role, content }` in the source. -/
structure Msg where
  role : String
  content : String
deriving DecidableEq, Repr

/-- Constant `CHAT_SYSTEM_PROMPT` from `src/chatConfig.js`. -/
def CHAT_SYSTEM_PROMPT : String :=
  "You are an assistant for the portfolio of Saad Pasta. Be concise, helpful, and focused on his projects, experience, and skills."

/-- The initial entry of the `messages` state: `{ role: "system", content: CHAT_SYSTEM_PROMPT }`. -/
def systemTurn : Msg :=
  { role := "system", content := CHAT_SYSTEM_PROMPT }

/-- The welcome message pushed by `handleToggle` on first open. -/
def welcomeTurn : Msg :=
  { role := "assistant",
    content := "Hi! I can help you understand Saad Pasta\u2019s projects, skills and experience." }

/-- The fallback reply used when a 2xx JSON body has no usable `reply` field. -/
def fallbackReplyText : String :=
  "I am having trouble responding right now. Please try again in a moment."

/-- The message appended by the `catch` branch of `handleSubmit`. -/
def connectionErrorText : String :=
  "Connection error. Please check your network and try again."

/--
Derived list `visibleMessages` from the source:
`messages.filter((m) => m.role !== "system")`.
-/
def visibleMessages (ms : List Msg) : List Msg :=
  ms.filter (fun m => m.role ≠ "system")

/--
Independent rendition of the natural-language description of the visible
projection ("the full stored sequence with every system entry removed,
same relative order"), written by direct recursion so that it can be
compared against the filter the source computes.
-/
def removeSystemTurns : List Msg → List Msg
  | [] => []
  | m :: rest =>
    if m.role = "system" then removeSystemTurns rest
    else m :: removeSystemTurns rest

/--
JSON values as produced by `response.json()`.  Numbers are modelled as
integers: no claim depends on numeric JSON payloads, only on whether the
parsed value is truthy and on its `reply` property.
-/
inductive JsonValue where
  | null
  | bool (b : Bool)
  | num (n : Int)
  | str (s : String)
  | arr (elems : List JsonValue)
  | obj (fields : List (String × JsonValue))

/-- JavaScript truthiness of a parsed JSON value (`data && ...`). -/
def jsTruthy : JsonValue → Bool
  | .null => false
  | .bool b => b
  | .num n => n != 0
  | .str s => s != ""
  | .arr _ => true
  | .obj _ => true

/--
JavaScript property access `data.reply` on a parsed JSON value.  On an
object it returns the last binding of the key (as `JSON.parse` keeps the
last duplicate key); on every other value the property is `undefined`,
modelled as `none`.  (`data` is known to be truthy at the access site in
the source, so a throwing access on `null` never happens.)
-/
def jsGetField : JsonValue → String → Option JsonValue
  | .obj fields, k => ((fields.filter (fun p => p.1 == k)).getLast?).map (fun p => p.2)
  | _, _ => none

/--
The conditional of `handleSubmit` choosing the reply text:
`data && typeof data.reply === "string" && data.reply.length > 0
  ? data.reply : "I am having trouble responding right now. ..."`.
-/
def replyTextOf (data : JsonValue) : String :=
  if jsTruthy data then
    match jsGetField data "reply" with
    | some (JsonValue.str r) => if 0 < r.length then r else fallbackReplyText
    | _ => fallbackReplyText
  else fallbackReplyText

/--
An HTTP response as seen by `handleSubmit`: its status code, and the
result of parsing its body as JSON (`none` when `response.json()` would
reject because the body is not valid JSON).
-/
structure HttpResponse where
  status : Nat
  body : Option JsonValue

/-- Value of `response.ok`: status in the 2xx range. -/
def responseOk (r : HttpResponse) : Bool :=
  200 ≤ r.status && r.status ≤ 299

/-- How the awaited `fetch` settles: a response, or a transport-level rejection. -/
inductive FetchOutcome where
  | networkFailure
  | response (r : HttpResponse)

/--
Classification of a settled request by the `try`/`catch` of
`handleSubmit`: the content of the assistant turn that gets appended,
together with whether the `catch` branch ran (`true` = the thrown
`HTTP <status>` error, a JSON parse rejection, or a transport failure).
-/
def settleResult : FetchOutcome → String × Bool
  | .networkFailure => (connectionErrorText, true)
  | .response r =>
    if responseOk r then
      match r.body with
      | none => (connectionErrorText, true)
      | some data => (replyTextOf data, false)
    else (connectionErrorText, true)

/--
Whole state of one widget session: the four React state cells, the
`updatedHistory` captured by the closure of an in-flight `handleSubmit`
(`none` when no request is in flight), and the log of JSON bodies handed
to `fetch`.
-/
structure ChatState where
  isOpen : Bool
  isSending : Bool
  input : String
  messages : List Msg
  pendingHistory : Option (List Msg)
  sentPayloads : List (List Msg)
deriving DecidableEq, Repr

/-- The state right after mount: `useState` initial values. -/
def initState : ChatState :=
  { isOpen := false, isSending := false, input := "",
    messages := [systemTurn], pendingHistory := none, sentPayloads := [] }

/--
A session state holding 29 stored turns (the system turn plus 28 user
turns) and the input "Hello": submitting from it makes the post-append
history 30 turns long, the instance named by the truncation property.
-/
def state29 : ChatState :=
  { initState with
    input := "Hello",
    messages := systemTurn
      :: (List.range 28).map (fun i => { role := "user", content := toString i }) }

/--
Handler `handleToggle`: flips `isOpen`; when the popup was closed and no visible
message exists yet, additionally pushes the welcome assistant turn.
(The condition reads the pre-toggle closure values, as in the source.)
-/
def handleToggle (s : ChatState) : ChatState :=
  let s1 := { s with isOpen := !s.isOpen }
  if s.isOpen = false ∧ (visibleMessages s.messages).length = 0 then
    { s1 with messages := s1.messages ++ [welcomeTurn] }
  else s1

/--
Model of JavaScript `String.prototype.trim` as used on `input`:
removes whitespace from both ends of the string.  It is written over the
underlying character list so that it evaluates by kernel reduction
(`String.trim` of the core library gets stuck on `Substring` loops).
-/
def jsTrim (s : String) : String :=
  ⟨((s.data.dropWhile Char.isWhitespace).reverse.dropWhile Char.isWhitespace).reverse⟩

/-- JavaScript `arr.slice(-k)` for `k > 0`: the last `min k arr.length` elements. -/
def jsSliceLast {α : Type} (k : Nat) (l : List α) : List α :=
  l.drop (l.length - k)

/-- Local `updatedHistory` of `handleSubmit`: `[...messages, { role: "user", content: trimmed }]`. -/
def updatedHistoryOf (s : ChatState) : List Msg :=
  s.messages ++ [{ role := "user", content := jsTrim s.input }]

/-- Local `compactHistory` of `handleSubmit`: `updatedHistory.slice(-25)`. -/
def compactHistoryOf (s : ChatState) : List Msg :=
  jsSliceLast 25 (updatedHistoryOf s)

/--
Synchronous prefix of `handleSubmit`: the guard
`if (!trimmed || isSending) return;`, then `setInput("")`,
`setMessages(updatedHistory)`, `setIsSending(true)` and the `fetch`
call with body `{ messages: compactHistory }` (recorded in
`sentPayloads`); the captured `updatedHistory` is stored in
`pendingHistory`.
-/
def handleSubmitStart (s : ChatState) : ChatState :=
  if jsTrim s.input = "" ∨ s.isSending = true then s
  else
    { s with input := "",
             messages := updatedHistoryOf s,
             isSending := true,
             pendingHistory := some (updatedHistoryOf s),
             sentPayloads := s.sentPayloads ++ [compactHistoryOf s] }

/--
Settlement of the in-flight request: `setMessages([...updatedHistory,
assistantOrError])` with the text chosen by `settleResult`, then the
`finally` clause `setIsSending(false)`.  When no request is in flight
there is nothing to settle and the state is unchanged.
-/
def handleSubmitSettle (s : ChatState) (o : FetchOutcome) : ChatState :=
  match s.pendingHistory with
  | none => s
  | some updatedHistory =>
    { s with messages := updatedHistory ++ [{ role := "assistant", content := (settleResult o).1 }],
             isSending := false,
             pendingHistory := none }

/--
Events driving a widget session: typing in the textarea (`onChange`,
disabled while sending, as the `disabled={isSending}` attribute makes
the control inert), toggling the popup, submitting the form, and the
settlement of the in-flight network call.
-/
inductive Event where
  | setInput (t : String)
  | toggle
  | submit
  | settle (o : FetchOutcome)

/-- One step of the widget session. -/
def step (s : ChatState) : Event → ChatState
  | .setInput t => if s.isSending then s else { s with input := t }
  | .toggle => handleToggle s
  | .submit => handleSubmitStart s
  | .settle o => handleSubmitSettle s o

/-- States reachable from the freshly mounted widget. -/
inductive Reachable : ChatState → Prop
  | init : Reachable initState
  | next {s : ChatState} (e : Event) : Reachable s → Reachable (step s e)

/--
Session invariant: the stored sequence starts with the system turn; the
history captured by an in-flight request is exactly the current stored
sequence, and mid-flight the visible list is non-empty (it contains the
user turn of the request); while sending the input buffer is empty; and
a request is in flight exactly when `isSending` is set.
-/
def Inv (s : ChatState) : Prop :=
  s.messages.head? = some systemTurn ∧
  (∀ h, s.pendingHistory = some h → h = s.messages ∧ visibleMessages s.messages ≠ []) ∧
  (s.isSending = true → s.input = "") ∧
  s.pendingHistory.isSome = s.isSending

theorem head?_append_singleton {l : List Msg} {x m : Msg} (h : l.head? = some m) :
    (l ++ [x]).head? = some m := by
  cases l with
  | nil => simp at h
  | cons a t => simpa using h

theorem visible_append_user (l : List Msg) (c : String) :
    visibleMessages (l ++ [{ role := "user", content := c }]) =
      visibleMessages l ++ [{ role := "user", content := c }] := by
  unfold visibleMessages
  rw [List.filter_append]
  rfl

theorem inv_init : Inv initState := by
  refine ⟨rfl, ?_, ?_, rfl⟩
  · intro h hp
    exact Option.noConfusion hp
  · intro hc
    exact Bool.noConfusion hc

theorem inv_step {s : ChatState} (e : Event) (hs : Inv s) : Inv (step s e) := by
  obtain ⟨h1, h2, h3, h4⟩ := hs
  cases e with
  | setInput t =>
    simp only [step]
    split
    · exact ⟨h1, h2, h3, h4⟩
    · rename_i hsend
      refine ⟨h1, h2, ?_, h4⟩
      intro hc
      exact absurd hc hsend
  | toggle =>
    simp only [step, handleToggle]
    split
    · rename_i hcond
      have hvis : visibleMessages s.messages = [] :=
        List.length_eq_zero.mp hcond.2
      refine ⟨head?_append_singleton h1, ?_, h3, h4⟩
      intro h hp
      exact absurd hvis (h2 h hp).2
    · exact ⟨h1, h2, h3, h4⟩
  | submit =>
    simp only [step, handleSubmitStart]
    split
    · exact ⟨h1, h2, h3, h4⟩
    · refine ⟨head?_append_singleton h1, ?_, ?_, rfl⟩
      · intro h hp
        have hh : updatedHistoryOf s = h := by
          injection hp
        refine ⟨hh.symm, ?_⟩
        rw [updatedHistoryOf, visible_append_user]
        exact List.append_ne_nil_of_right_ne_nil _ (by simp)
      · intro _
        rfl
  | settle o =>
    simp only [step, handleSubmitSettle]
    cases hpend : s.pendingHistory with
    | none => exact ⟨h1, h2, h3, h4⟩
    | some hist =>
      obtain ⟨hh, _⟩ := h2 hist hpend
      refine ⟨?_, ?_, ?_, rfl⟩
      · rw [hh]
        exact head?_append_singleton h1
      · intro h hp
        exact Option.noConfusion hp
      · intro hc
        exact Bool.noConfusion hc

theorem reachable_inv {s : ChatState} (h : Reachable s) : Inv s := by
  induction h with
  | init => exact inv_init
  | next e _ ih => exact inv_step e ih

theorem replyTextOf_eq_fallback {data : JsonValue}
    (h : ∀ t, jsGetField data "reply" = some (JsonValue.str t) → t.length = 0) :
    replyTextOf data = fallbackReplyText := by
  unfold replyTextOf
  cases ht : jsTruthy data
  · simp
  · rw [if_pos rfl]
    cases hg : jsGetField data "reply" with
    | none => rfl
    | some v =>
      cases v with
      | null => rfl
      | bool b => rfl
      | num n => rfl
      | str r =>
        have hr : r.length = 0 := h r hg
        have hnot : ¬ 0 < r.length := by omega
        simp [hnot]
      | arr es => rfl
      | obj fs => rfl

/-- Claim C1 (counterexample): submitting "Hello" against an endpoint that
answers HTTP 500 appends the connection-error turn, whose text differs from
the "trouble responding" fallback — the claim fails as stated. -/
theorem C1_counterexample :
    ((step (step (step initState (Event.setInput "Hello")) Event.submit)
        (Event.settle (FetchOutcome.response { status := 500, body := none }))).messages.getLast?
      = some { role := "assistant", content := connectionErrorText }) ∧
    connectionErrorText ≠ fallbackReplyText := by
  constructor
  · rfl
  · decide

/-- Claim C1 (amended): a non-2xx response, or a 2xx response whose body is
not parseable JSON, takes the catch path: the appended assistant turn
carries the connection-error text (distinct from the "trouble responding"
fallback), and the coordinator returns to idle. -/
theorem C1_amended_connection_error_on_http_or_parse_error
    (s : ChatState) (hist : List Msg) (r : HttpResponse)
    (hp : s.pendingHistory = some hist)
    (hr : responseOk r = false ∨ r.body = none) :
    (step s (Event.settle (FetchOutcome.response r))).messages
      = hist ++ [{ role := "assistant", content := connectionErrorText }] ∧
    (step s (Event.settle (FetchOutcome.response r))).isSending = false ∧
    connectionErrorText ≠ fallbackReplyText := by
  have hres : settleResult (FetchOutcome.response r) = (connectionErrorText, true) := by
    rcases hr with hr | hr
    · simp [settleResult, hr]
    · cases hok : responseOk r
      · simp [settleResult, hok]
      · simp [settleResult, hok, hr]
  refine ⟨?_, ?_, by decide⟩
  · simp only [step, handleSubmitSettle, hp, hres]
  · simp only [step, handleSubmitSettle, hp]

/-- Claim C1 (amended, witness): the HTTP 500 instance of the amended claim. -/
theorem C1_amended_witness :
    (step (step (step initState (Event.setInput "Hello")) Event.submit)
        (Event.settle (FetchOutcome.response { status := 500, body := none }))).messages
      = [systemTurn, { role := "user", content := "Hello" }]
        ++ [{ role := "assistant", content := connectionErrorText }] ∧
    (step (step (step initState (Event.setInput "Hello")) Event.submit)
        (Event.settle (FetchOutcome.response { status := 500, body := none }))).isSending = false ∧
    connectionErrorText ≠ fallbackReplyText :=
  C1_amended_connection_error_on_http_or_parse_error _ _ _ rfl (Or.inl rfl)

/-- Claim C2: a 2xx response whose body parses as JSON but has no non-empty
string `reply` field appends the fixed fallback turn through the success
path (the catch branch does not run), the fallback text contains
"having trouble responding", and it differs from the connection-error
wording. -/
theorem C2_fallback_reply
    (s : ChatState) (hist : List Msg) (r : HttpResponse) (data : JsonValue)
    (hp : s.pendingHistory = some hist)
    (hok : responseOk r = true)
    (hbody : r.body = some data)
    (hno : ∀ t, jsGetField data "reply" = some (JsonValue.str t) → t.length = 0) :
    (step s (Event.settle (FetchOutcome.response r))).messages
      = hist ++ [{ role := "assistant", content := fallbackReplyText }] ∧
    (settleResult (FetchOutcome.response r)).2 = false ∧
    "having trouble responding".toList <:+: fallbackReplyText.toList ∧
    fallbackReplyText ≠ connectionErrorText := by
  have hres : settleResult (FetchOutcome.response r) = (fallbackReplyText, false) := by
    simp [settleResult, hok, hbody, replyTextOf_eq_fallback hno]
  refine ⟨?_, ?_, ?_, by decide⟩
  · simp only [step, handleSubmitSettle, hp, hres]
  · rw [hres]
  · decide

/-- Claim C2 (witness): a 200 response whose body is the empty JSON object. -/
theorem C2_witness :
    (step (step (step initState (Event.setInput "Hello")) Event.submit)
        (Event.settle (FetchOutcome.response
          { status := 200, body := some (JsonValue.obj []) }))).messages
      = [systemTurn, { role := "user", content := "Hello" }]
        ++ [{ role := "assistant", content := fallbackReplyText }] ∧
    (settleResult (FetchOutcome.response
        { status := 200, body := some (JsonValue.obj []) })).2 = false ∧
    "having trouble responding".toList <:+: fallbackReplyText.toList ∧
    fallbackReplyText ≠ connectionErrorText :=
  C2_fallback_reply _ _ _ _ rfl rfl rfl (fun _ ht => Option.noConfusion ht)

/-- Claim C3: in every reachable state with a request in flight, the
coordinator is busy, and settling the request (on any outcome) returns it
to idle while appending exactly one assistant turn to the stored
sequence — the new sequence is the old one plus a single assistant
entry. -/
theorem C3_exactly_one_assistant_turn
    (s : ChatState) (hist : List Msg) (o : FetchOutcome)
    (hreach : Reachable s) (hp : s.pendingHistory = some hist) :
    s.isSending = true ∧
    (step s (Event.settle o)).isSending = false ∧
    (step s (Event.settle o)).messages
      = s.messages ++ [{ role := "assistant", content := (settleResult o).1 }] := by
  obtain ⟨-, h2, -, h4⟩ := reachable_inv hreach
  obtain ⟨hh, -⟩ := h2 hist hp
  refine ⟨?_, ?_, ?_⟩
  · rw [← h4, hp]
    rfl
  · simp only [step, handleSubmitSettle, hp]
  · simp only [step, handleSubmitSettle, hp]
    rw [hh]

/-- Claim C3 (witness): transport failure after submitting "Hello" from the
fresh widget. -/
theorem C3_witness :
    (step (step initState (Event.setInput "Hello")) Event.submit).isSending = true ∧
    (step (step (step initState (Event.setInput "Hello")) Event.submit)
        (Event.settle FetchOutcome.networkFailure)).isSending = false ∧
    (step (step (step initState (Event.setInput "Hello")) Event.submit)
        (Event.settle FetchOutcome.networkFailure)).messages
      = (step (step initState (Event.setInput "Hello")) Event.submit).messages
        ++ [{ role := "assistant", content := (settleResult FetchOutcome.networkFailure).1 }] :=
  C3_exactly_one_assistant_turn _ _ _
    (Reachable.next Event.submit (Reachable.next (Event.setInput "Hello") Reachable.init))
    rfl

/-- Claim C4: a guard-passing submission raises the busy flag, and the
settlement of the request clears it again on every outcome — transport
failure, HTTP error and parse failure included. -/
theorem C4_busy_cleared_on_every_path
    (s : ChatState) (o : FetchOutcome)
    (h1 : jsTrim s.input ≠ "") (h2 : s.isSending = false) :
    (handleSubmitStart s).isSending = true ∧
    (handleSubmitSettle (handleSubmitStart s) o).isSending = false := by
  have hg : ¬ (jsTrim s.input = "" ∨ s.isSending = true) := by
    rintro (h | h)
    · exact h1 h
    · rw [h2] at h
      exact Bool.noConfusion h
  have hstart : (handleSubmitStart s).pendingHistory = some (updatedHistoryOf s) := by
    unfold handleSubmitStart
    rw [if_neg hg]
  constructor
  · unfold handleSubmitStart
    rw [if_neg hg]
  · unfold handleSubmitSettle
    rw [hstart]

/-- Claim C4 (witness): the flag is cleared after a transport failure. -/
theorem C4_witness :
    (handleSubmitStart { initState with input := "Hello" }).isSending = true ∧
    (handleSubmitSettle (handleSubmitStart { initState with input := "Hello" })
        FetchOutcome.networkFailure).isSending = false :=
  C4_busy_cleared_on_every_path _ FetchOutcome.networkFailure (by decide) rfl

/-- Claim C5: when the guard fails — blank trimmed text or a request already
in flight — submitting is a complete no-op: the whole state, messages,
input buffer, busy flag and network-call log included, is unchanged. -/
theorem C5_guard_failure_no_op (s : ChatState)
    (h : jsTrim s.input = "" ∨ s.isSending = true) :
    step s Event.submit = s := by
  simp only [step, handleSubmitStart, if_pos h]

/-- Claim C5 (witness): whitespace-only input, and submission while busy. -/
theorem C5_witness :
    step { initState with input := "   " } Event.submit
      = { initState with input := "   " } ∧
    step { initState with input := "World", isSending := true } Event.submit
      = { initState with input := "World", isSending := true } :=
  ⟨C5_guard_failure_no_op _ (Or.inl (by decide)),
   C5_guard_failure_no_op _ (Or.inr rfl)⟩

/-- Claim C6: a guard-passing submission issues one network call carrying
exactly the last `min n 25` turns of the full post-append history of
length `n`, in original order (a suffix of the history), while the stored
sequence keeps all `n` turns. -/
theorem C6_payload_truncation (s : ChatState)
    (h1 : jsTrim s.input ≠ "") (h2 : s.isSending = false) :
    (handleSubmitStart s).sentPayloads = s.sentPayloads ++ [compactHistoryOf s] ∧
    compactHistoryOf s
      = (updatedHistoryOf s).drop ((updatedHistoryOf s).length - 25) ∧
    (compactHistoryOf s).length = min (updatedHistoryOf s).length 25 ∧
    compactHistoryOf s <:+ updatedHistoryOf s ∧
    (handleSubmitStart s).messages = updatedHistoryOf s := by
  have hg : ¬ (jsTrim s.input = "" ∨ s.isSending = true) := by
    rintro (h | h)
    · exact h1 h
    · rw [h2] at h
      exact Bool.noConfusion h
  refine ⟨?_, rfl, ?_, ?_, ?_⟩
  · unfold handleSubmitStart
    rw [if_neg hg]
  · unfold compactHistoryOf jsSliceLast
    rw [List.length_drop]
    omega
  · unfold compactHistoryOf jsSliceLast
    exact List.drop_suffix _ _
  · unfold handleSubmitStart
    rw [if_neg hg]

/-- Claim C6 (witness): a post-append history of 30 turns, whose payload is
its last 25 turns. -/
theorem C6_witness :
    (handleSubmitStart state29).sentPayloads = state29.sentPayloads ++ [compactHistoryOf state29] ∧
    compactHistoryOf state29
      = (updatedHistoryOf state29).drop ((updatedHistoryOf state29).length - 25) ∧
    (compactHistoryOf state29).length = min (updatedHistoryOf state29).length 25 ∧
    compactHistoryOf state29 <:+ updatedHistoryOf state29 ∧
    (handleSubmitStart state29).messages = updatedHistoryOf state29 :=
  C6_payload_truncation state29 (by decide) rfl

/-- Claim C7: in every state reachable by any sequence of operations, the
first stored turn is still the original system turn carrying the
configured prompt. -/
theorem C7_system_turn_immutable (s : ChatState) (h : Reachable s) :
    s.messages.head? = some { role := "system", content := CHAT_SYSTEM_PROMPT } :=
  (reachable_inv h).1

/-- Claim C7 (witness): the invariant at a state reached by toggling and
then submitting. -/
theorem C7_witness :
    (step (step (step initState Event.toggle) (Event.setInput "Hello"))
        Event.submit).messages.head?
      = some { role := "system", content := CHAT_SYSTEM_PROMPT } :=
  C7_system_turn_immutable _
    (Reachable.next Event.submit
      (Reachable.next (Event.setInput "Hello")
        (Reachable.next Event.toggle Reachable.init)))

theorem visible_eq_removeSystemTurns (ms : List Msg) :
    visibleMessages ms = removeSystemTurns ms := by
  induction ms with
  | nil => rfl
  | cons a t ih =>
    by_cases ha : a.role = "system"
    · rw [removeSystemTurns, if_pos ha, ← ih, visibleMessages, visibleMessages,
        List.filter_cons_of_neg]
      simp [ha]
    · rw [removeSystemTurns, if_neg ha, ← ih, visibleMessages, visibleMessages,
        List.filter_cons_of_pos]
      simp [ha]

/-- Claim C8: the visible list is exactly the stored sequence with the
system-role entries removed, preserving relative order — it coincides with
the recursive removal of system entries, is an order-preserving
subsequence of the stored list, contains no system entry, and keeps every
non-system entry. -/
theorem C8_visible_projection (ms : List Msg) :
    visibleMessages ms = removeSystemTurns ms ∧
    List.Sublist (visibleMessages ms) ms ∧
    (∀ m, m ∈ visibleMessages ms → m.role ≠ "system") ∧
    (∀ m, m ∈ ms → m.role ≠ "system" → m ∈ visibleMessages ms) := by
  refine ⟨visible_eq_removeSystemTurns ms, List.filter_sublist ms, ?_, ?_⟩
  · intro m hm
    have := List.of_mem_filter hm
    simpa using this
  · intro m hm hrole
    apply List.mem_filter_of_mem hm
    simpa using hrole

/-- Claim C8 (witness): the projection on a two-turn sequence. -/
theorem C8_witness :
    visibleMessages [systemTurn, welcomeTurn] = removeSystemTurns [systemTurn, welcomeTurn] ∧
    List.Sublist (visibleMessages [systemTurn, welcomeTurn]) [systemTurn, welcomeTurn] :=
  ⟨(C8_visible_projection [systemTurn, welcomeTurn]).1,
   (C8_visible_projection [systemTurn, welcomeTurn]).2.1⟩

/-- Claim C9: toggling appends the single welcome assistant turn exactly
when the popup was closed and no message was visible (and then opens the
popup); toggling while open, or while some message is visible, leaves the
stored sequence unchanged. -/
theorem C9_welcome_seeding (s : ChatState) :
    ((s.isOpen = false ∧ visibleMessages s.messages = []) →
      (step s Event.toggle).messages = s.messages ++ [welcomeTurn] ∧
      (step s Event.toggle).isOpen = true) ∧
    ((s.isOpen = true ∨ visibleMessages s.messages ≠ []) →
      (step s Event.toggle).messages = s.messages) := by
  constructor
  · rintro ⟨ho, hv⟩
    have hcond : s.isOpen = false ∧ (visibleMessages s.messages).length = 0 :=
      ⟨ho, by rw [hv]; rfl⟩
    constructor
    · simp only [step, handleToggle, if_pos hcond]
    · have hflip : (step s Event.toggle).isOpen = !s.isOpen := by
        simp only [step, handleToggle]
        split
        · rfl
        · rfl
      rw [hflip, ho]
      rfl
  · intro hor
    have hcond : ¬ (s.isOpen = false ∧ (visibleMessages s.messages).length = 0) := by
      rintro ⟨ho, hl⟩
      rcases hor with h | h
      · rw [h] at ho
        exact Bool.noConfusion ho
      · exact h (List.length_eq_zero.mp hl)
    simp only [step, handleToggle, if_neg hcond]

/-- Claim C9 (witness): the first toggle on the fresh widget seeds the
welcome turn and opens the popup. -/
theorem C9_witness :
    (step initState Event.toggle).messages = initState.messages ++ [welcomeTurn] ∧
    (step initState Event.toggle).isOpen = true :=
  (C9_welcome_seeding initState).1 ⟨rfl, rfl⟩

/-- Claim C10: a guard-passing submission empties the input buffer at once,
before the network call settles, and settlement leaves it empty on every
outcome — the submitted text is never restored, transport failure
included. -/
theorem C10_input_cleared (s : ChatState)
    (h1 : jsTrim s.input ≠ "") (h2 : s.isSending = false) :
    (handleSubmitStart s).input = "" ∧
    (∀ o : FetchOutcome,
      (handleSubmitSettle (handleSubmitStart s) o).input = "" ∧
      (handleSubmitSettle (handleSubmitStart s) o).input ≠ jsTrim s.input) := by
  have hg : ¬ (jsTrim s.input = "" ∨ s.isSending = true) := by
    rintro (h | h)
    · exact h1 h
    · rw [h2] at h
      exact Bool.noConfusion h
  have hstart : (handleSubmitStart s).pendingHistory = some (updatedHistoryOf s) := by
    unfold handleSubmitStart
    rw [if_neg hg]
  have hinput : (handleSubmitStart s).input = "" := by
    unfold handleSubmitStart
    rw [if_neg hg]
  refine ⟨hinput, ?_⟩
  intro o
  have hsettle : (handleSubmitSettle (handleSubmitStart s) o).input = "" := by
    unfold handleSubmitSettle
    rw [hstart]
    exact hinput
  refine ⟨hsettle, ?_⟩
  rw [hsettle]
  exact Ne.symm h1

/-- Claim C10 (witness): input " Hi " is cleared and stays cleared through a
transport failure. -/
theorem C10_witness :
    (handleSubmitStart { initState with input := " Hi " }).input = "" ∧
    (handleSubmitSettle (handleSubmitStart { initState with input := " Hi " })
        FetchOutcome.networkFailure).input = "" ∧
    (handleSubmitSettle (handleSubmitStart { initState with input := " Hi " })
        FetchOutcome.networkFailure).input ≠ jsTrim " Hi " :=
  ⟨(C10_input_cleared { initState with input := " Hi " } (by decide) rfl).1,
   ((C10_input_cleared { initState with input := " Hi " } (by decide) rfl).2
      FetchOutcome.networkFailure).1,
   ((C10_input_cleared { initState with input := " Hi " } (by decide) rfl).2
      FetchOutcome.networkFailure).2⟩

end ChatWidget
